import Mathlib

/-!
Verification of the meshrender VirtualCamera component
(src/meshrender_backup/camera.py) against its specification.

Floating-point arithmetic is modelled exactly over the rationals; Python
exceptions are modelled with an explicit error type and Except results.
-/

/-- The intrinsics value consumed by the camera (the external
CameraIntrinsics structure: frame label, focal lengths, principal point,
skew, and viewport size).  All numeric fields are modelled as rationals;
width and height are Python ints but all arithmetic on them in camera.py
goes through float conversion. -/
structure Intrinsics where
  frame : String
  fx : ℚ
  fy : ℚ
  cx : ℚ
  cy : ℚ
  skew : ℚ
  width : ℚ
  height : ℚ
deriving DecidableEq, Repr

/-- The Python exceptions that camera.py can raise:
ValueError from the isinstance check in the constructor,
AttributeError from calling copy on an unset (None) pose,
NameError from the undefined name V_inv_GL in the V property. -/
inductive PyError where
  | valueError
  | attributeError
  | nameError
deriving DecidableEq, Repr

/-- A Python value passed as the intrinsics argument of the constructor:
None, an actual CameraIntrinsics instance, or any other object. -/
inductive PyObject where
  | none
  | intr (i : Intrinsics)
  | other
deriving DecidableEq

/-- The VirtualCamera state: the stored intrinsics, the optional pose
matrix (None when unset), and the near/far clip distances. -/
structure VirtualCamera where
  intrinsics : Intrinsics
  pose : Option (Matrix (Fin 4) (Fin 4) ℚ)
  z_near : ℚ
  z_far : ℚ

namespace VirtualCamera

/-- VirtualCamera.__init__: raises ValueError when the intrinsics argument
is not a CameraIntrinsics instance, otherwise stores intrinsics, pose,
z_near and z_far unchanged. -/
def init (intrinsics : PyObject) (pose : Option (Matrix (Fin 4) (Fin 4) ℚ))
    (z_near z_far : ℚ) : Except PyError VirtualCamera :=
  match intrinsics with
  | PyObject.intr i =>
      Except.ok { intrinsics := i, pose := pose, z_near := z_near, z_far := z_far }
  | _ => Except.error PyError.valueError

/-- The reflection performed by V_inv[:3,1:3] *= -1 in the V property:
negate rows 0-2 of columns 1-2 of the pose matrix. -/
def reflectYZ (M : Matrix (Fin 4) (Fin 4) ℚ) : Matrix (Fin 4) (Fin 4) ℚ :=
  Matrix.of fun i j =>
    if i.val ≤ 2 ∧ (j.val = 1 ∨ j.val = 2) then -(M i j) else M i j

/-- The V property as the code executes it.  When pose is None the first
line self.pose.copy() raises AttributeError.  Otherwise the reflected
matrix is computed into the local V_inv, but the next line evaluates
np.linalg.inv(V_inv_GL) where V_inv_GL is an undefined name, so the
property raises NameError without ever returning a matrix. -/
def V (cam : VirtualCamera) : Except PyError (Matrix (Fin 4) (Fin 4) ℚ) :=
  match cam.pose with
  | Option.none => Except.error PyError.attributeError
  | Option.some p =>
      let V_inv := reflectYZ p
      let _ := V_inv
      Except.error PyError.nameError

/-- The P property: the OpenGL-style projection matrix built from the
stored intrinsics and clip distances; all unassigned entries stay zero. -/
def P (cam : VirtualCamera) : Matrix (Fin 4) (Fin 4) ℚ :=
  Matrix.of fun i j =>
    if i = 0 ∧ j = 0 then 2 * cam.intrinsics.fx / cam.intrinsics.width
    else if i = 1 ∧ j = 1 then 2 * cam.intrinsics.fy / cam.intrinsics.height
    else if i = 0 ∧ j = 2 then 1 - 2 * cam.intrinsics.cx / cam.intrinsics.width
    else if i = 1 ∧ j = 2 then 2 * cam.intrinsics.cy / cam.intrinsics.height - 1
    else if i = 2 ∧ j = 2 then -(cam.z_far + cam.z_near) / (cam.z_far - cam.z_near)
    else if i = 3 ∧ j = 2 then -1
    else if i = 2 ∧ j = 3 then -(2 * cam.z_far * cam.z_near) / (cam.z_far - cam.z_near)
    else 0

/-- VirtualCamera.resize: replaces the stored intrinsics by the rescaled
value.  Both focal lengths are multiplied by x_scale (the fy line uses
x_scale in the source); the principal point offsets from the geometric
centers (width-1)/2 and (height-1)/2 are scaled per axis. -/
def resize (cam : VirtualCamera) (new_width new_height : ℚ) : VirtualCamera :=
  let x_scale := new_width / cam.intrinsics.width
  let y_scale := new_height / cam.intrinsics.height
  let center_x := (cam.intrinsics.width - 1) / 2
  let center_y := (cam.intrinsics.height - 1) / 2
  let orig_cx_diff := cam.intrinsics.cx - center_x
  let orig_cy_diff := cam.intrinsics.cy - center_y
  let scaled_center_x := (new_width - 1) / 2
  let scaled_center_y := (new_height - 1) / 2
  let cx := scaled_center_x + x_scale * orig_cx_diff
  let cy := scaled_center_y + y_scale * orig_cy_diff
  let fx := cam.intrinsics.fx * x_scale
  let fy := cam.intrinsics.fy * x_scale
  { cam with
    intrinsics :=
      { frame := cam.intrinsics.frame
        fx := fx
        fy := fy
        cx := cx
        cy := cy
        skew := cam.intrinsics.skew
        width := new_width
        height := new_height } }

end VirtualCamera

/-- A concrete camera used to instantiate C1: the spec test values
fx = fy = 500, width 640, height 480, cx 320, cy 240, with z_near 1 and
z_far 10. -/
def testCam1 : VirtualCamera :=
  { intrinsics :=
      { frame := "camera", fx := 500, fy := 500, cx := 320, cy := 240
        skew := 0, width := 640, height := 480 }
    pose := Option.none
    z_near := 1
    z_far := 10 }

/-- C1: for every VirtualCamera with z_far different from z_near, the
projection property P has the seven listed nonzero-position entries
(2fx/w, 2fy/h, 1-2cx/w, 2cy/h-1, -(f+n)/(f-n), -1, -2fn/(f-n)) and every
other entry equal to zero; skew is not used. -/
theorem P_entries (cam : VirtualCamera) (h : cam.z_far ≠ cam.z_near) :
    cam.P 0 0 = 2 * cam.intrinsics.fx / cam.intrinsics.width ∧
    cam.P 1 1 = 2 * cam.intrinsics.fy / cam.intrinsics.height ∧
    cam.P 0 2 = 1 - 2 * cam.intrinsics.cx / cam.intrinsics.width ∧
    cam.P 1 2 = 2 * cam.intrinsics.cy / cam.intrinsics.height - 1 ∧
    cam.P 2 2 = -(cam.z_far + cam.z_near) / (cam.z_far - cam.z_near) ∧
    cam.P 3 2 = -1 ∧
    cam.P 2 3 = -(2 * cam.z_far * cam.z_near) / (cam.z_far - cam.z_near) ∧
    ∀ i j : Fin 4,
      (i, j) ∉ ([(0, 0), (1, 1), (0, 2), (1, 2), (2, 2), (3, 2), (2, 3)] :
        List (Fin 4 × Fin 4)) →
      cam.P i j = 0 := by
  refine ⟨rfl, rfl, rfl, rfl, rfl, rfl, rfl, ?_⟩
  intro i j hij
  fin_cases i <;> fin_cases j <;> first | rfl | exact absurd (by decide) hij

/-- Witness for C1 at the concrete spec camera. -/
theorem P_entries_witness :
    testCam1.z_far ≠ testCam1.z_near ∧
    testCam1.P 2 2 = -(testCam1.z_far + testCam1.z_near) / (testCam1.z_far - testCam1.z_near) ∧
    testCam1.P 2 3 = -(2 * testCam1.z_far * testCam1.z_near) / (testCam1.z_far - testCam1.z_near) :=
  ⟨by decide, (P_entries testCam1 (by decide)).2.2.2.2.1,
    (P_entries testCam1 (by decide)).2.2.2.2.2.2.1⟩

/-- C9: resize only replaces the intrinsics field; pose, z_near and z_far
are exactly the same after the call as before it. -/
theorem resize_only_intrinsics (cam : VirtualCamera) (nw nh : ℚ) :
    (cam.resize nw nh).pose = cam.pose ∧
    (cam.resize nw nh).z_near = cam.z_near ∧
    (cam.resize nw nh).z_far = cam.z_far :=
  ⟨rfl, rfl, rfl⟩

/-- Witness for C9 at a concrete camera and size. -/
theorem resize_only_intrinsics_witness :
    (testCam1.resize 1280 960).pose = testCam1.pose ∧
    (testCam1.resize 1280 960).z_near = testCam1.z_near ∧
    (testCam1.resize 1280 960).z_far = testCam1.z_far :=
  resize_only_intrinsics testCam1 1280 960

/-- A concrete camera used to instantiate C2, with an off-center principal
point. -/
def testCam2 : VirtualCamera :=
  { intrinsics :=
      { frame := "camera", fx := 500, fy := 600, cx := 330, cy := 250
        skew := 0, width := 640, height := 480 }
    pose := Option.none
    z_near := 1
    z_far := 10 }

/-- C2: resize(nw, nh) on a camera with positive intrinsic width and height
replaces the intrinsics by the value with width nw, height nh,
cx = (nw-1)/2 + (nw/w)*(cx - (w-1)/2), cy = (nh-1)/2 + (nh/h)*(cy - (h-1)/2),
fx = fx*(nw/w), fy = fy*(nw/w) (both focal lengths scaled by the horizontal
factor), and the same frame label and skew. -/
theorem resize_spec (cam : VirtualCamera) (nw nh : ℚ)
    (hw : 0 < cam.intrinsics.width) (hh : 0 < cam.intrinsics.height) :
    (cam.resize nw nh).intrinsics =
      { frame := cam.intrinsics.frame
        fx := cam.intrinsics.fx * (nw / cam.intrinsics.width)
        fy := cam.intrinsics.fy * (nw / cam.intrinsics.width)
        cx := (nw - 1) / 2 +
          (nw / cam.intrinsics.width) * (cam.intrinsics.cx - (cam.intrinsics.width - 1) / 2)
        cy := (nh - 1) / 2 +
          (nh / cam.intrinsics.height) * (cam.intrinsics.cy - (cam.intrinsics.height - 1) / 2)
        skew := cam.intrinsics.skew
        width := nw
        height := nh } :=
  rfl

/-- Witness for C2 at a concrete camera and size. -/
theorem resize_spec_witness :
    0 < testCam2.intrinsics.width ∧ 0 < testCam2.intrinsics.height ∧
    (testCam2.resize 1280 960).intrinsics =
      { frame := testCam2.intrinsics.frame
        fx := testCam2.intrinsics.fx * (1280 / testCam2.intrinsics.width)
        fy := testCam2.intrinsics.fy * (1280 / testCam2.intrinsics.width)
        cx := (1280 - 1) / 2 +
          (1280 / testCam2.intrinsics.width) * (testCam2.intrinsics.cx - (testCam2.intrinsics.width - 1) / 2)
        cy := (960 - 1) / 2 +
          (960 / testCam2.intrinsics.height) * (testCam2.intrinsics.cy - (testCam2.intrinsics.height - 1) / 2)
        skew := testCam2.intrinsics.skew
        width := 1280
        height := 960 } :=
  ⟨by decide, by decide, resize_spec testCam2 1280 960 (by decide) (by decide)⟩

/-- C3 evaluation: on a camera with a set (identity, hence invertible) pose,
reading V does not return inv(reflectYZ(pose)); it raises NameError, because
the source line V = np.linalg.inv(V_inv_GL) references the undefined name
V_inv_GL instead of the computed local V_inv. -/
theorem V_raises_nameError :
    ({ intrinsics :=
         { frame := "camera", fx := 500, fy := 500, cx := 320, cy := 240
           skew := 0, width := 640, height := 480 }
       pose := Option.some (1 : Matrix (Fin 4) (Fin 4) ℚ)
       z_near := 1
       z_far := 10 } : VirtualCamera).V = Except.error PyError.nameError :=
  rfl

/-- A concrete camera used to instantiate C4: 640x480 with cx=320, cy=240
and distinct focal lengths fx=500, fy=600. -/
def testCam4 : VirtualCamera :=
  { intrinsics :=
      { frame := "camera", fx := 500, fy := 600, cx := 320, cy := 240
        skew := 0, width := 640, height := 480 }
    pose := Option.none
    z_near := 1
    z_far := 10 }

/-- Counterexample to C4: resizing the 640x480, cx=320, cy=240 camera to
1280x960 does not give cx=640, cy=480, fx=2*fx_old, fy=2*fx_old.  The code
yields cx=640.5, cy=480.5 (the geometric center is (w-1)/2 = 319.5, so
cx=320 is off-center by 1/2) and fy=2*fy_old=1200, not 2*fx_old=1000. -/
theorem resize_2x_claim_cex :
    ¬ ((testCam4.resize 1280 960).intrinsics.cx = 640 ∧
       (testCam4.resize 1280 960).intrinsics.cy = 480 ∧
       (testCam4.resize 1280 960).intrinsics.fx = 2 * 500 ∧
       (testCam4.resize 1280 960).intrinsics.fy = 2 * 500) := by
  intro h
  have hcx := h.1
  norm_num [VirtualCamera.resize, testCam4] at hcx

/-- C4 amended: resizing a 640x480 camera with cx=320, cy=240 to 1280x960
yields cx = 640.5, cy = 480.5, fx = 2*fx_old and fy = 2*fy_old (fy is scaled
by the horizontal factor applied to fy_old, not fx_old). -/
theorem resize_2x_amended (fx fy skew : ℚ) (frame : String)
    (pose : Option (Matrix (Fin 4) (Fin 4) ℚ)) (zn zf : ℚ) :
    (({ intrinsics :=
          { frame := frame, fx := fx, fy := fy, cx := 320, cy := 240
            skew := skew, width := 640, height := 480 }
        pose := pose, z_near := zn, z_far := zf } : VirtualCamera).resize
        1280 960).intrinsics =
      { frame := frame, fx := 2 * fx, fy := 2 * fy, cx := 1281 / 2, cy := 961 / 2
        skew := skew, width := 1280, height := 960 } := by
  simp only [VirtualCamera.resize, Intrinsics.mk.injEq]
  norm_num
  constructor <;> ring

/-- A concrete camera used to instantiate C5. -/
def testCam5 : VirtualCamera :=
  { intrinsics :=
      { frame := "camera", fx := 500, fy := 600, cx := 330, cy := 250
        skew := 0, width := 640, height := 480 }
    pose := Option.none
    z_near := 1
    z_far := 10 }

/-- C5: two successive resizes produce exactly the intrinsics of a single
resize to the final size, for any camera with positive width/height and
positive intermediate target size (the fx/fy quirk composes the same way). -/
theorem resize_resize (cam : VirtualCamera) (w1 h1 w2 h2 : ℚ)
    (hw : 0 < cam.intrinsics.width) (hh : 0 < cam.intrinsics.height)
    (hw1 : 0 < w1) (hh1 : 0 < h1) :
    ((cam.resize w1 h1).resize w2 h2).intrinsics = (cam.resize w2 h2).intrinsics := by
  have hw0 : cam.intrinsics.width ≠ 0 := ne_of_gt hw
  have hh0 : cam.intrinsics.height ≠ 0 := ne_of_gt hh
  have hw10 : w1 ≠ 0 := ne_of_gt hw1
  have hh10 : h1 ≠ 0 := ne_of_gt hh1
  simp only [VirtualCamera.resize, Intrinsics.mk.injEq]
  and_intros <;> first | trivial | (field_simp; ring)

/-- Witness for C5 at a concrete camera and sizes. -/
theorem resize_resize_witness :
    0 < testCam5.intrinsics.width ∧ 0 < testCam5.intrinsics.height ∧
    (0 : ℚ) < 320 ∧ (0 : ℚ) < 240 ∧
    ((testCam5.resize 320 240).resize 800 600).intrinsics =
      (testCam5.resize 800 600).intrinsics :=
  ⟨by decide, by decide, by decide, by decide,
    resize_resize testCam5 320 240 800 600 (by decide) (by decide) (by decide) (by decide)⟩

/-- The validity notion used by claim C6 for the intrinsics argument: an
actual Intrinsics value with positive width and height. -/
def validIntrArg (arg : PyObject) : Prop :=
  ∃ i, arg = PyObject.intr i ∧ 0 < i.width ∧ 0 < i.height

/-- The instance of claim C6's error condition at a given argument: the
constructor raises an error iff the argument is not valid in the claim's
sense. -/
def initClaimAt (arg : PyObject) (pose : Option (Matrix (Fin 4) (Fin 4) ℚ))
    (zn zf : ℚ) : Prop :=
  (∃ e, VirtualCamera.init arg pose zn zf = Except.error e) ↔ ¬ validIntrArg arg

/-- An Intrinsics instance with non-positive width and height, used to
refute C6's validity check. -/
def i6bad : Intrinsics :=
  { frame := "camera", fx := 500, fy := 500, cx := 320, cy := 240
    skew := 0, width := 0, height := 0 }

/-- A well-formed Intrinsics instance used to instantiate C6. -/
def i6 : Intrinsics :=
  { frame := "camera", fx := 500, fy := 500, cx := 320, cy := 240
    skew := 0, width := 640, height := 480 }

/-- Counterexample to C6: an Intrinsics instance with width = height = 0 is
not valid in the claim's sense, yet the constructor accepts it (the code
only performs the isinstance check, never a positivity check). -/
theorem init_claim_cex : ¬ initClaimAt (PyObject.intr i6bad) Option.none 1 10 := by
  intro h
  have hv : ¬ validIntrArg (PyObject.intr i6bad) := by
    rintro ⟨i, hi, hwi, hhi⟩
    injection hi with hi2
    subst hi2
    exact absurd hwi (by decide)
  obtain ⟨e, he⟩ := h.mpr hv
  simp [VirtualCamera.init] at he

/-- C6 amended: the constructor raises exactly when the intrinsics argument
is not a CameraIntrinsics instance (None and any other object both raise;
width/height positivity is never checked), it never inspects z_near/z_far,
and on success it stores the four arguments unchanged. -/
theorem init_spec (arg : PyObject) (pose : Option (Matrix (Fin 4) (Fin 4) ℚ))
    (zn zf : ℚ) :
    ((∃ e, VirtualCamera.init arg pose zn zf = Except.error e) ↔
      ∀ i, arg ≠ PyObject.intr i) ∧
    (∀ i, arg = PyObject.intr i →
      VirtualCamera.init arg pose zn zf =
        Except.ok { intrinsics := i, pose := pose, z_near := zn, z_far := zf }) := by
  constructor
  · constructor
    · rintro ⟨e, he⟩ i hi
      subst hi
      simp [VirtualCamera.init] at he
    · intro hni
      cases arg with
      | none => exact ⟨PyError.valueError, rfl⟩
      | intr i => exact absurd rfl (hni i)
      | other => exact ⟨PyError.valueError, rfl⟩
  · intro i hi
    subst hi
    rfl

/-- Witness for C6's amended statement: construction succeeds and stores the
arguments unchanged even with z_near = 5 greater than z_far = 2. -/
theorem init_spec_witness :
    VirtualCamera.init (PyObject.intr i6) Option.none 5 2 =
      Except.ok { intrinsics := i6, pose := Option.none, z_near := 5, z_far := 2 } :=
  (init_spec (PyObject.intr i6) Option.none 5 2).2 i6 rfl

/-- A concrete camera with unset pose, used to instantiate C7. -/
def testCam7 : VirtualCamera :=
  { intrinsics :=
      { frame := "camera", fx := 500, fy := 500, cx := 320, cy := 240
        skew := 0, width := 640, height := 480 }
    pose := Option.none
    z_near := 1
    z_far := 10 }

/-- C7: on a camera whose pose is unset, reading V fails (the AttributeError
from self.pose.copy() on None, the unset-pose precondition failure) rather
than returning a matrix. -/
theorem V_unset_pose (cam : VirtualCamera) (h : cam.pose = Option.none) :
    cam.V = Except.error PyError.attributeError := by
  simp [VirtualCamera.V, h]

/-- Witness for C7 at a concrete camera with unset pose. -/
theorem V_unset_pose_witness :
    testCam7.pose = Option.none ∧ testCam7.V = Except.error PyError.attributeError :=
  ⟨rfl, V_unset_pose testCam7 rfl⟩

/-- A concrete camera with unset pose, used to instantiate C8. -/
def testCam8a : VirtualCamera :=
  { intrinsics :=
      { frame := "camera", fx := 500, fy := 500, cx := 320, cy := 240
        skew := 0, width := 640, height := 480 }
    pose := Option.none
    z_near := 1
    z_far := 10 }

/-- The same camera as testCam8a but with a set (identity) pose. -/
def testCam8b : VirtualCamera :=
  { intrinsics :=
      { frame := "camera", fx := 500, fy := 500, cx := 320, cy := 240
        skew := 0, width := 640, height := 480 }
    pose := Option.some (1 : Matrix (Fin 4) (Fin 4) ℚ)
    z_near := 1
    z_far := 10 }

/-- C8: P is independent of pose: any two cameras with equal intrinsics,
z_near and z_far, whatever their pose values (set, unset, or different),
have the same projection matrix; hence reassigning the pose never changes
P's output. -/
theorem P_pose_independent (c1 c2 : VirtualCamera)
    (hi : c1.intrinsics = c2.intrinsics) (hn : c1.z_near = c2.z_near)
    (hf : c1.z_far = c2.z_far) : c1.P = c2.P := by
  funext i j
  simp [VirtualCamera.P, hi, hn, hf]

/-- Witness for C8: two cameras equal except that one has no pose and the
other the identity pose have the same projection matrix. -/
theorem P_pose_independent_witness :
    testCam8a.intrinsics = testCam8b.intrinsics ∧
    testCam8a.z_near = testCam8b.z_near ∧
    testCam8a.z_far = testCam8b.z_far ∧
    testCam8a.P = testCam8b.P :=
  ⟨rfl, rfl, rfl, P_pose_independent testCam8a testCam8b rfl rfl rfl⟩

/-- A concrete camera with an off-center principal point, used to
instantiate C10. -/
def testCam10 : VirtualCamera :=
  { intrinsics :=
      { frame := "camera", fx := 500, fy := 600, cx := 330, cy := 250
        skew := 0, width := 640, height := 480 }
    pose := Option.none
    z_near := 1
    z_far := 10 }

/-- C10: resize scales each principal-point offset from the geometric
center by that axis's scale factor, so the offset-to-size ratio
(cx - (width-1)/2) / width (and its cy analogue) is invariant under resize,
also for non-uniform scales. -/
theorem resize_center_offset (cam : VirtualCamera) (nw nh : ℚ)
    (hw : 0 < cam.intrinsics.width) (hh : 0 < cam.intrinsics.height)
    (hnw : 0 < nw) (hnh : 0 < nh) :
    ((cam.resize nw nh).intrinsics.cx - (nw - 1) / 2 =
      (nw / cam.intrinsics.width) *
        (cam.intrinsics.cx - (cam.intrinsics.width - 1) / 2)) ∧
    ((cam.resize nw nh).intrinsics.cy - (nh - 1) / 2 =
      (nh / cam.intrinsics.height) *
        (cam.intrinsics.cy - (cam.intrinsics.height - 1) / 2)) ∧
    (((cam.resize nw nh).intrinsics.cx - ((cam.resize nw nh).intrinsics.width - 1) / 2) /
        (cam.resize nw nh).intrinsics.width =
      (cam.intrinsics.cx - (cam.intrinsics.width - 1) / 2) / cam.intrinsics.width) ∧
    (((cam.resize nw nh).intrinsics.cy - ((cam.resize nw nh).intrinsics.height - 1) / 2) /
        (cam.resize nw nh).intrinsics.height =
      (cam.intrinsics.cy - (cam.intrinsics.height - 1) / 2) / cam.intrinsics.height) := by
  have hw0 : cam.intrinsics.width ≠ 0 := ne_of_gt hw
  have hh0 : cam.intrinsics.height ≠ 0 := ne_of_gt hh
  have hnw0 : nw ≠ 0 := ne_of_gt hnw
  have hnh0 : nh ≠ 0 := ne_of_gt hnh
  simp only [VirtualCamera.resize]
  and_intros <;> (field_simp; ring)

/-- Witness for C10 at a concrete camera and a non-uniform target size. -/
theorem resize_center_offset_witness :
    0 < testCam10.intrinsics.width ∧ 0 < testCam10.intrinsics.height ∧
    (0 : ℚ) < 1280 ∧ (0 : ℚ) < 400 ∧
    ((testCam10.resize 1280 400).intrinsics.cx -
        ((testCam10.resize 1280 400).intrinsics.width - 1) / 2) /
      (testCam10.resize 1280 400).intrinsics.width =
      (testCam10.intrinsics.cx - (testCam10.intrinsics.width - 1) / 2) /
        testCam10.intrinsics.width :=
  ⟨by decide, by decide, by decide, by decide,
    (resize_center_offset testCam10 1280 400 (by decide) (by decide) (by decide)
      (by decide)).2.2.1⟩
